import Mathlib

/-!
Verification of the mock OpenAI server and forwarding proxy
(`openai-mtls-provider` repository, mock server and proxy embedded in
`integration-test-no-stream.sh`).

This file gives a shallow embedding of the server's response synthesis,
streaming encoder, embeddings handler and the proxy's header/status logic,
and proves the testable properties stated in the design document.

Conventions of the embedding:
* Go `rand` calls are injected as explicit parameters (`Rand` below), so
  the functions are the deterministic residue of the handlers.
* Go strings are Lean `String`s; `len` of a Go string (a byte count) is
  `String.utf8ByteSize`.
* `float64` arithmetic is modelled exactly over `ℚ`; the divergences we
  study are gross (orders of magnitude), not rounding-level.
* Identifiers derived from UUIDs and clock timestamps are carried as
  opaque injected strings or omitted when no claim mentions them.
-/

namespace MockServer

/-- One typed content part of a message
(Go `ContentPart`, fields `type` and `text`). -/
structure ContentPart where
  type : String
  text : String
deriving DecidableEq, Repr, Inhabited

/-- Go `MessageContent`: a string (`Text`) or a list of typed parts
(`Parts`); the custom unmarshaller fills exactly one of the two. -/
structure MessageContent where
  text : String
  parts : List ContentPart
deriving DecidableEq, Repr, Inhabited

/-- Go `MessageContent.GetText`: the flat text view used for token
estimation — the plain text if non-empty, otherwise the `"text"`-typed,
non-empty parts joined by single spaces. -/
def MessageContent.GetText (mc : MessageContent) : String :=
  if mc.text ≠ "" then mc.text
  else
    String.intercalate " "
      ((mc.parts.filter (fun p => p.type == "text" && p.text != "")).map (·.text))

/-- Go `ChatMessage` (the fields the handlers read or build). -/
structure ToolCall where
  id : String
  type : String
  name : String
  arguments : String
deriving DecidableEq, Repr, Inhabited

structure ChatMessage where
  role : String
  content : MessageContent
  toolCalls : List ToolCall
deriving DecidableEq, Repr, Inhabited

/-- Go `Tool`: the handler only ever reads `Function.Name`; the JSON-schema
parameters are passed through opaquely and never consulted. -/
structure Tool where
  type : String
  name : String
deriving DecidableEq, Repr

/-- Go `req.ToolChoice`, an `interface{}` decoded from JSON:
absent (`nil`), a string, an object naming a function
(`map[string]interface{}`), or some other JSON value. -/
inductive ToolChoice where
  | null
  | str (s : String)
  | obj (functionName : String)
  | otherVal
deriving DecidableEq, Repr

/-- Go `ChatCompletionRequest` (the fields the handler reads; sampling
parameters it never consults are omitted). -/
structure ChatCompletionRequest where
  model : String
  messages : List ChatMessage
  n : Option Int
  stream : Bool
  tools : List Tool
  toolChoice : ToolChoice
deriving DecidableEq, Repr

structure Usage where
  promptTokens : Nat
  completionTokens : Nat
  totalTokens : Nat
deriving DecidableEq, Repr

structure ChatChoice where
  index : Nat
  message : ChatMessage
  finishReason : String
deriving DecidableEq, Repr, Inhabited

structure ChatCompletionResponse where
  model : String
  choices : List ChatChoice
  usage : Usage
deriving DecidableEq, Repr

/-- The essence of a streamed chunk: Go `StreamDelta` has only the two
optional fields `role` and `content` (no tool-call field exists in the
chunk type), plus the finish chunk and the literal `data: [DONE]`
sentinel. -/
inductive StreamFrame where
  | roleOpen (role : String)
  | contentDelta (content : String)
  | finish (reason : String)
  | done
deriving DecidableEq, Repr

/-- The canned reply pool, Go `mockResponses`. -/
def mockResponses : List String :=
  ["Hello! I'm a mock OpenAI server. How can I help you today?",
   "I'm here to assist with your testing needs. This is a simulated response.",
   "This is a mock response from the OpenAI-compatible server. Everything is working correctly!",
   "Greetings! I'm a test server simulating OpenAI's API. Feel free to experiment!",
   "Mock response generated successfully. Your API integration is working!"]

/-- The injected randomness / nondeterminism of one request:
`replyIndex` is `rand.Intn(len(mockResponses))`, `toolRand` is the
`rand.Float32()` draw in `shouldUseTool` (a value in `[0,1)`), `callId`
the UUID-derived tool-call id. -/
structure Rand where
  replyIndex : Fin 5
  toolRand : ℚ
  callId : String

/-- Go `estimateTokens`: byte length divided by 4 (integer division). -/
def estimateTokens (text : String) : Nat :=
  text.utf8ByteSize / 4

/-- Go `shouldUseTool` with the `rand.Float32()` draw made explicit:
a string choice forces a tool call iff it is `"required"` or `"auto"`;
an object choice always forces one; otherwise the draw decides at
threshold 0.3. -/
def shouldUseTool (toolChoice : ToolChoice) (r : ℚ) : Bool :=
  match toolChoice with
  | .str s => s == "required" || s == "auto"
  | .obj _ => true
  | .null => r < 3/10
  | .otherVal => r < 3/10

def mockArguments : String := "\x7b\"mock\": \"arguments\"\x7d"

/-- The canned reply selected by the `rand.Intn` draw. -/
def pickReply (i : Fin 5) : String := mockResponses.getD i.val ""

/-- The non-streaming synthesis step of `chatCompletionsHandler`: if tools
are present and `shouldUseTool` fires, build a tool-call message on the
FIRST tool of the list with canned arguments and finish reason
`"tool_calls"`; otherwise a canned prose reply with finish reason
`"stop"`. -/
def synthesize (tools : List Tool) (toolChoice : ToolChoice) (rnd : Rand) :
    ChatMessage × String :=
  match tools with
  | tool :: _ =>
    if shouldUseTool toolChoice rnd.toolRand then
      ({ role := "assistant", content := { text := "", parts := [] },
         toolCalls := [{ id := rnd.callId, type := "function",
                         name := tool.name, arguments := mockArguments }] },
       "tool_calls")
    else
      ({ role := "assistant",
         content := { text := pickReply rnd.replyIndex, parts := [] },
         toolCalls := [] }, "stop")
  | [] =>
      ({ role := "assistant",
         content := { text := pickReply rnd.replyIndex, parts := [] },
         toolCalls := [] }, "stop")

/-- Choice count: Go `n := 1; if req.N != nil && *req.N > 0 { n = *req.N }`. -/
def nFromReq (nOpt : Option Int) : Nat :=
  match nOpt with
  | some k => if k > 0 then k.toNat else 1
  | none => 1

/-- Go `strings.Fields` restricted to the whitespace classes Lean knows
(space, tab, CR, LF — the only whitespace occurring in this server's
strings): maximal runs of non-whitespace characters. -/
def fieldsAux : List Char → List Char → List (List Char)
  | [], acc => if acc = [] then [] else [acc.reverse]
  | c :: cs, acc =>
    if c.isWhitespace then
      if acc = [] then fieldsAux cs []
      else acc.reverse :: fieldsAux cs []
    else fieldsAux cs (c :: acc)

def fields (s : String) : List String :=
  (fieldsAux s.toList []).map fun l => ⟨l⟩

/-- The content of each successive `content`-delta emitted by
`handleStreamingChat`: word `i` of the canned reply plus a trailing
single space, except the last word, which gets none. -/
def deltaContents (content : String) : List String :=
  let words := fields content
  words.enum.map fun p => if p.1 < words.length - 1 then p.2 ++ " " else p.2

/-- Go `handleStreamingChat` as the ordered frame sequence it flushes:
one role-open chunk, the word deltas, one finish chunk with reason
`"stop"`, then the literal `data: [DONE]` sentinel. -/
def handleStreamingChat (content : String) : List StreamFrame :=
  [StreamFrame.roleOpen "assistant"]
    ++ (deltaContents content).map StreamFrame.contentDelta
    ++ [StreamFrame.finish "stop", StreamFrame.done]

/-- The outcome of `chatCompletionsHandler` on a decoded request. -/
inductive HandlerResult where
  | error (status : Nat) (errType : String) (param : Option String)
  | completion (resp : ChatCompletionResponse)
  | streamed (frames : List StreamFrame)
deriving DecidableEq, Repr

/-- Go `chatCompletionsHandler` on a decoded request (method and JSON
decoding already done), with the random draws injected. -/
def chatCompletionsHandler (req : ChatCompletionRequest) (rnd : Rand) :
    HandlerResult :=
  if req.model = "" then
    .error 400 "invalid_request_error" (some "model")
  else if req.messages.length = 0 then
    .error 400 "invalid_request_error" (some "messages")
  else if req.stream then
    .streamed (handleStreamingChat (pickReply rnd.replyIndex))
  else
    let synth := synthesize req.tools req.toolChoice rnd
    let promptTokens :=
      (req.messages.map (fun m => estimateTokens m.content.GetText)).sum
    let completionTokens := estimateTokens synth.1.content.GetText
    let n := nFromReq req.n
    .completion
      { model := req.model
        choices := (List.range n).map fun i =>
          { index := i, message := synth.1, finishReason := synth.2 }
        usage :=
          { promptTokens := promptTokens
            completionTokens := completionTokens * n
            totalTokens := promptTokens + completionTokens * n } }

/-! ### Embeddings handler -/

/-- One element of the JSON `input` array: a string is kept, any other
JSON value is skipped by the type switch. -/
inductive EmbedItem where
  | str (s : String)
  | nonString
deriving DecidableEq, Repr

/-- Go `req.Input`, an `interface{}`: a single string, an array, or some
other JSON value (which leaves the parsed input list empty). -/
inductive EmbedInput where
  | str (s : String)
  | arr (items : List EmbedItem)
  | otherVal
deriving DecidableEq, Repr

/-- Go `EmbeddingsRequest` (the fields the handler reads). `input = none`
models JSON `null` / absent, which the handler rejects. -/
structure EmbeddingsRequest where
  model : String
  input : Option EmbedInput
  dimensions : Option Int
deriving DecidableEq, Repr

/-- The `switch v := req.Input.(type)` block collecting the string
inputs. -/
def parseInputs : EmbedInput → List String
  | .str s => [s]
  | .arr items => items.filterMap fun
      | .str s => some s
      | .nonString => none
  | .otherVal => []

/-- The dimension selection of `embeddingsHandler`: default 1536,
3072 for `text-embedding-3-large`, then a set `dimensions` field
overrides for the two v3 models only. -/
def computeDimensions (model : String) (dims : Option Int) : Int :=
  let d : Int := if model == "text-embedding-3-large" then 3072 else 1536
  match dims with
  | some k =>
    if model == "text-embedding-3-small" || model == "text-embedding-3-large"
    then k else d
  | none => d

/-- The `1e-10` guard added to the sum of squares, as an exact rational. -/
def epsQ : ℚ := 1 / 10 ^ 10

/-- Sum of squares of a vector (the handler's `sumSq` accumulator). -/
def sumSq (v : List ℚ) : ℚ := (v.map fun x => x * x).sum

/-- The handler's "normalize to unit vector" step, exactly as coded:
every component is multiplied by `norm := 1 / (sumSq + 1e-10)` — note
the missing square root. -/
def normalizeEmbedding (raw : List ℚ) : List ℚ :=
  let s := sumSq raw
  let norm := 1 / (s + epsQ)
  raw.map fun x => x * norm

/-- One generated embedding: `dimensions` draws of `rand.NormFloat64()`
(injected as `raw`), then the normalization step. -/
def generateEmbedding (d : Nat) (raw : Nat → ℚ) : List ℚ :=
  normalizeEmbedding ((List.range d).map raw)

/-- Outcome of `embeddingsHandler`; `panicked` is the runtime panic of
`make([]float64, dimensions)` on a negative length. -/
inductive EmbedResult where
  | error (status : Nat) (errType : String) (param : Option String)
  | panicked
  | ok (data : List (List ℚ)) (promptTokens : Nat)
deriving DecidableEq, Repr

/-- Go `embeddingsHandler` on a decoded request, with the per-input
Gaussian draws injected (`raw i j` is draw `j` for input `i`).
`make([]float64, dimensions)` runs once per input, so a negative
dimension panics only when at least one input exists. -/
def embeddingsHandler (req : EmbeddingsRequest) (raw : Nat → Nat → ℚ) :
    EmbedResult :=
  if req.model = "" then .error 400 "invalid_request_error" (some "model")
  else
    match req.input with
    | none => .error 400 "invalid_request_error" (some "input")
    | some inp =>
      let d := computeDimensions req.model req.dimensions
      let inputs := parseInputs inp
      if d < 0 ∧ inputs ≠ [] then .panicked
      else
        .ok (inputs.enum.map fun p => generateEmbedding d.toNat (raw p.1))
          ((inputs.map estimateTokens).sum)

end MockServer

namespace Proxy

/-! ### Forwarding proxy: header hygiene and failure statuses -/

/-- An HTTP header as an ordered multimap of (canonical key, value)
pairs; Go's `http.Header` canonicalizes keys at parse time, so exact
key match models its `Get`/`Set`/`Del`. -/
abbrev Header := List (String × String)

/-- All values carried for key `k` (Go `header[k]`). -/
def headerValues (k : String) (h : Header) : List String :=
  (h.filter fun p => p.1 == k).map (·.2)

/-- Go `Header.Get`: the first value stored for the key, `""` when the
key is absent. -/
def headerGetStr (k : String) (h : Header) : String :=
  (headerValues k h).headD ""

/-- Go `Header.Set`: replace all values of the key with the single given
one. -/
def headerSet (k v : String) (h : Header) : Header :=
  (h.filter fun p => p.1 != k) ++ [(k, v)]

/-- The eight hop-by-hop headers the proxy strips (Go
`hopByHopHeaders`). -/
def hopByHopHeaders : List String :=
  ["Connection", "Keep-Alive", "Proxy-Authenticate", "Proxy-Authorization",
   "Te", "Trailers", "Transfer-Encoding", "Upgrade"]

/-- Go `removeHopByHopHeaders`: delete every hop-by-hop key. -/
def removeHopByHopHeaders (h : Header) : Header :=
  h.filter fun p => !(hopByHopHeaders.contains p.1)

/-- The `X-Forwarded-For` value the proxy sets: the prior value extended
with `", " ++ ip`, or just the client ip when no prior value exists. -/
def xffValue (prior ip : String) : String :=
  if prior != "" then prior ++ ", " ++ ip else ip

/-- The outbound request headers built by `handleHTTP`: copy, strip
hop-by-hop, then (when `SplitHostPort` on the remote address succeeds)
set `X-Forwarded-For`, and always set `X-Forwarded-Host` and
`X-Forwarded-Proto`. -/
def outboundHeaders (reqH : Header) (remoteIP : Option String)
    (host : String) : Header :=
  let h := removeHopByHopHeaders reqH
  let h := match remoteIP with
    | some ip => headerSet "X-Forwarded-For"
        (xffValue (headerGetStr "X-Forwarded-For" h) ip) h
    | none => h
  headerSet "X-Forwarded-Proto" "http" (headerSet "X-Forwarded-Host" host h)

/-- The response headers `handleHTTP` relays to the client: copy the
upstream headers, then strip hop-by-hop. -/
def relayedResponseHeaders (respH : Header) : Header :=
  removeHopByHopHeaders respH

/-! Failure-status dispatch of the two proxy handlers, with each fallible
step's outcome injected. -/

inductive DialResult | ok | err
deriving DecidableEq, Repr
inductive HijackerCheck | supported | unsupported
deriving DecidableEq, Repr
inductive HijackCall | ok | err
deriving DecidableEq, Repr
inductive WriteResult | ok | err
deriving DecidableEq, Repr

/-- Outcome of `handleConnect`: an `http.Error` status, a silently
aborted connection (the raw write of the 200 line failed after hijack),
or an established tunnel. -/
inductive ConnectOutcome where
  | httpError (status : Nat)
  | aborted
  | established
deriving DecidableEq, Repr

/-- Go `handleConnect` control flow: dial the target (503 on failure),
check the `http.Hijacker` capability (500 when unsupported), call
`Hijack()` (503 on error), write `200 Connection Established` (silent
return on error), else run the tunnel. -/
def handleConnect (dial : DialResult) (hc : HijackerCheck)
    (call : HijackCall) (wr : WriteResult) : ConnectOutcome :=
  match dial with
  | .err => .httpError 503
  | .ok =>
    match hc with
    | .unsupported => .httpError 500
    | .supported =>
      match call with
      | .err => .httpError 503
      | .ok =>
        match wr with
        | .err => .aborted
        | .ok => .established

inductive NewReqResult | ok | err
deriving DecidableEq, Repr
inductive DoResult | ok | err
deriving DecidableEq, Repr

/-- Outcome of `handleHTTP`'s failure dispatch. -/
inductive ForwardOutcome where
  | httpError (status : Nat)
  | relayed
deriving DecidableEq, Repr

/-- Go `handleHTTP` control flow: `http.NewRequest` failure is a 500,
`client.Do` failure (target unreachable) is a 502, otherwise the
response is relayed. -/
def handleHTTPDispatch (nr : NewReqResult) (dr : DoResult) : ForwardOutcome :=
  match nr with
  | .err => .httpError 500
  | .ok =>
    match dr with
    | .err => .httpError 502
    | .ok => .relayed

end Proxy

namespace MockServer

/-! ### Observation helpers on handler results -/

/-- Number of choices of a completion result. -/
def choiceCount : HandlerResult → Nat
  | .completion resp => resp.choices.length
  | _ => 0

/-- The `index` fields of the choices, in order. -/
def choiceIndices : HandlerResult → List Nat
  | .completion resp => resp.choices.map (·.index)
  | _ => []

/-- The messages of the choices, in order. -/
def choiceMessages : HandlerResult → List ChatMessage
  | .completion resp => resp.choices.map (·.message)
  | _ => []

/-- `usage.completion_tokens` of a completion result. -/
def completionTokensOf : HandlerResult → Option Nat
  | .completion resp => some resp.usage.completionTokens
  | _ => none

/-- `usage.prompt_tokens` of a completion result. -/
def promptTokensOfResult : HandlerResult → Option Nat
  | .completion resp => some resp.usage.promptTokens
  | _ => none

/-- Tool-call function names carried by the first choice. -/
def toolCallNames : HandlerResult → List String
  | .completion resp =>
    match resp.choices with
    | c :: _ => c.message.toolCalls.map (·.name)
    | [] => []
  | _ => []

/-- `finish_reason` of the first choice. -/
def firstFinishReason : HandlerResult → Option String
  | .completion resp => resp.choices.head?.map (·.finishReason)
  | _ => none

/-- The prompt-token sum the handler computes over the input messages. -/
def promptTokensOf (msgs : List ChatMessage) : Nat :=
  (msgs.map fun m => estimateTokens m.content.GetText).sum

/-- The vectors of a successful embeddings result. -/
def embedData : EmbedResult → List (List ℚ)
  | .ok data _ => data
  | _ => []

/-- Whether a stream frame is the finish chunk. -/
def isFinishFrame : StreamFrame → Bool
  | .finish _ => true
  | _ => false

/-- Dimension rule as the specification states it: 1536 by default, 3072
for `text-embedding-3-large`, and the request's `dimensions` value when
set for the two v3 models (ignored for all other models). Written from
the spec's words, to be compared with `computeDimensions`. -/
def specDimensions (model : String) (dims : Option Int) : Int :=
  match dims with
  | some k =>
    if model == "text-embedding-3-small" || model == "text-embedding-3-large"
    then k
    else if model == "text-embedding-3-large" then 3072 else 1536
  | none => if model == "text-embedding-3-large" then 3072 else 1536

/-! ### Concrete inputs used in witnesses and counterexamples -/

/-- A plain-text user message. -/
def userMsg (s : String) : ChatMessage :=
  { role := "user", content := { text := s, parts := [] }, toolCalls := [] }

/-- A fixed assignment of the random draws. -/
def exRand : Rand := { replyIndex := 0, toolRand := 1/2, callId := "call_w" }

/-- The first canned reply. -/
def replyZero : String := mockResponses.getD 0 ""

def reqEmptyModel : ChatCompletionRequest :=
  { model := "", messages := [userMsg "Hello!"], n := none, stream := false,
    tools := [], toolChoice := .null }

def reqEmptyMessages : ChatCompletionRequest :=
  { model := "gpt-4", messages := [], n := none, stream := false,
    tools := [], toolChoice := .null }

/-- A streaming request carrying tools and a forcing tool choice. -/
def reqStreamTools : ChatCompletionRequest :=
  { model := "gpt-4o", messages := [userMsg "Hello!"], n := none,
    stream := true,
    tools := [{ type := "function", name := "get_weather" }],
    toolChoice := .str "required" }

/-- Two declared tools with a `tool_choice` object naming the second. -/
def reqToolChoiceNamed : ChatCompletionRequest :=
  { model := "gpt-4", messages := [userMsg "Hello!"], n := none,
    stream := false,
    tools := [{ type := "function", name := "get_weather" },
              { type := "function", name := "get_time" }],
    toolChoice := .obj "get_time" }

/-- Tools with the literal string choice `"required"`. -/
def reqToolsRequired : ChatCompletionRequest :=
  { model := "gpt-4", messages := [userMsg "Hello!"], n := none,
    stream := false,
    tools := [{ type := "function", name := "get_weather" }],
    toolChoice := .str "required" }

/-- A non-streaming request asking for three choices. -/
def reqThreeChoices : ChatCompletionRequest :=
  { model := "gpt-4", messages := [userMsg "Hello!", userMsg "How are you?"],
    n := some 3, stream := false, tools := [], toolChoice := .null }

/-- A non-streaming request with a negative choice count. -/
def reqNegativeN : ChatCompletionRequest :=
  { model := "gpt-4", messages := [userMsg "Hello!"], n := some (-2),
    stream := false, tools := [], toolChoice := .null }

/-- An embeddings request on a 2-dimension override. -/
def embedReqSmall : EmbeddingsRequest :=
  { model := "text-embedding-3-small", input := some (.str "hi"),
    dimensions := some 2 }

/-- A raw-Gaussian draw sequence whose first vector is `(3, 4)`. -/
def rawThreeFour : Nat → Nat → ℚ := fun _ j => if j = 0 then 3 else 4

/-- An embeddings request on the 3072-dimension model with an override
and a mixed input array. -/
def embedReqLarge : EmbeddingsRequest :=
  { model := "text-embedding-3-large",
    input := some (.arr [.str "alpha", .nonString, .str "beta"]),
    dimensions := some 7 }

/-- A constant raw draw. -/
def rawOnes : Nat → Nat → ℚ := fun _ _ => 1

/-- The vectors `embeddingsHandler` produces on `embedReqLarge`. -/
def embedDataLarge : List (List ℚ) :=
  [generateEmbedding 7 (rawOnes 0), generateEmbedding 7 (rawOnes 1)]

end MockServer

namespace Proxy

/-- Request headers exercising hop-by-hop stripping and an existing
`X-Forwarded-For`. -/
def exReqHeaders : Header :=
  [("Connection", "keep-alive"), ("Accept", "text/html"),
   ("X-Forwarded-For", "1.2.3.4"), ("Te", "trailers")]

/-- Upstream response headers with a hop-by-hop entry. -/
def exRespHeaders : Header :=
  [("Transfer-Encoding", "chunked"), ("Content-Type", "text/event-stream")]

end Proxy

/-! ## Shared lemmas -/

open MockServer Proxy

/-- The non-streaming success path of the chat handler, fully unfolded. -/
theorem chatCompletionsHandler_nonstream (req : ChatCompletionRequest)
    (rnd : Rand) (hm : req.model ≠ "") (hmsg : req.messages ≠ [])
    (hs : req.stream = false) :
    chatCompletionsHandler req rnd = .completion
      { model := req.model
        choices := (List.range (nFromReq req.n)).map fun i =>
          { index := i
            message := (synthesize req.tools req.toolChoice rnd).1
            finishReason := (synthesize req.tools req.toolChoice rnd).2 }
        usage :=
          { promptTokens := promptTokensOf req.messages
            completionTokens :=
              estimateTokens
                  (synthesize req.tools req.toolChoice rnd).1.content.GetText
                * nFromReq req.n
            totalTokens :=
              promptTokensOf req.messages +
                estimateTokens
                    (synthesize req.tools req.toolChoice rnd).1.content.GetText
                  * nFromReq req.n } } := by
  simp [chatCompletionsHandler, hm, hs, List.length_eq_zero, hmsg,
    promptTokensOf]

/-- The choice count is always at least one. -/
theorem nFromReq_pos (nOpt : Option Int) : 0 < nFromReq nOpt := by
  rcases nOpt with _ | k
  · simp [nFromReq]
  · simp only [nFromReq]
    split
    · omega
    · omega

/-! ## Claim C1 -/

/-- **C1** (code bug). The handler's "normalize to unit vector" step
multiplies each component by `1 / (sumSq + 1e-10)` instead of
`1 / sqrt(sumSq + 1e-10)`. On the raw draw `(3, 4)` the returned vector's
squared L2 norm is `25 / (25 + 1e-10)²` (about `0.04`), far below any
small tolerance of 1; evaluating `embeddingsHandler` on a validated
request producing this draw shows the vector is actually returned. -/
theorem embedding_vector_not_unit_norm :
    embedData (embeddingsHandler embedReqSmall rawThreeFour) =
        [normalizeEmbedding [3, 4]]
      ∧ sumSq (normalizeEmbedding [3, 4]) < 1 / 10 := by
  constructor
  · have hv : (List.range 2).map (rawThreeFour 0) = [3, 4] := by
      simp [List.range_succ, rawThreeFour]
    simp only [embedData, embeddingsHandler, embedReqSmall, parseInputs,
      computeDimensions, generateEmbedding]
    norm_num [List.enum, hv]
    rw [if_neg (by decide)]
    rw [show Int.toNat 2 = 2 from rfl, hv]
  · simp only [normalizeEmbedding, sumSq, epsQ, List.map_cons, List.map_nil,
      List.sum_cons, List.sum_nil]
    norm_num

/-! ## Claim C5 -/

/-- **C5**. A chat request with an empty model string is rejected with a
400 `invalid_request_error` naming `"model"`; one with a non-empty model
but an empty messages list is rejected with a 400 naming `"messages"`.
In both cases the result is the error value alone — no completion is
synthesized and no stream is started. -/
theorem chat_validation_errors (req : ChatCompletionRequest) (rnd : Rand) :
    (req.model = "" →
      chatCompletionsHandler req rnd =
        .error 400 "invalid_request_error" (some "model"))
      ∧ (req.model ≠ "" → req.messages = [] →
        chatCompletionsHandler req rnd =
          .error 400 "invalid_request_error" (some "messages")) := by
  constructor
  · intro hm
    simp [chatCompletionsHandler, hm]
  · intro hm hmsg
    simp [chatCompletionsHandler, hm, hmsg]

/-- Witness for `chat_validation_errors` at two concrete requests. -/
theorem chat_validation_errors_witness :
    chatCompletionsHandler reqEmptyModel exRand =
        .error 400 "invalid_request_error" (some "model")
      ∧ chatCompletionsHandler reqEmptyMessages exRand =
        .error 400 "invalid_request_error" (some "messages") :=
  ⟨(chat_validation_errors reqEmptyModel exRand).1 rfl,
   (chat_validation_errors reqEmptyMessages exRand).2 (by decide) rfl⟩

/-! ## Claim C8 -/

/-- **C8** (counterexample to the claim as stated). The claim says 503 is
returned in tunnel mode exactly on failure to connect to the target; but
`handleConnect` also answers 503 when the dial succeeded and the
`Hijack()` call itself failed, so 503 is not exclusive to connect
failures. -/
theorem connect_503_not_exclusive_counterexample :
    handleConnect DialResult.ok HijackerCheck.supported HijackCall.err
        WriteResult.ok = .httpError 503
      ∧ (DialResult.ok = DialResult.err ↔ False) := by
  exact ⟨rfl, by simp⟩

/-- **C8 (amended)**. Tunnel mode answers 503 exactly when the dial to
the target fails or when the `Hijack()` call fails after a successful
dial; it answers 500 exactly when the transport lacks the hijacking
capability. Forward mode answers 502 exactly when the outbound request
fails, and 500 exactly when building the outbound request fails; neither
mode produces the other mode's statuses. -/
theorem proxy_failure_statuses (d : DialResult) (hc : HijackerCheck)
    (c : HijackCall) (w : WriteResult) (nr : NewReqResult) (dr : DoResult) :
    (handleConnect d hc c w = .httpError 503 ↔
        d = .err ∨ (d = .ok ∧ hc = .supported ∧ c = .err))
      ∧ (handleConnect d hc c w = .httpError 500 ↔
        d = .ok ∧ hc = .unsupported)
      ∧ (handleHTTPDispatch nr dr = .httpError 502 ↔
        nr = .ok ∧ dr = .err)
      ∧ (handleHTTPDispatch nr dr = .httpError 500 ↔ nr = .err)
      ∧ (handleConnect d hc c w = .httpError 502 ↔ False)
      ∧ (handleHTTPDispatch nr dr = .httpError 503 ↔ False) := by
  cases d <;> cases hc <;> cases c <;> cases w <;> cases nr <;> cases dr <;>
    decide

/-! ## Claim C10 -/

/-- **C10**. When `n` is absent, zero, or negative, the non-streaming
handler does not reject the request: it produces a completion with
exactly one choice at index 0, and completion-token accounting
multiplied by 1. -/
theorem chat_default_choice_count (req : ChatCompletionRequest) (rnd : Rand)
    (hm : req.model ≠ "") (hmsg : req.messages ≠ []) (hs : req.stream = false)
    (hn : req.n = none ∨ ∃ k, req.n = some k ∧ k ≤ 0) :
    choiceCount (chatCompletionsHandler req rnd) = 1
      ∧ choiceIndices (chatCompletionsHandler req rnd) = [0]
      ∧ completionTokensOf (chatCompletionsHandler req rnd) =
        some (estimateTokens
            (synthesize req.tools req.toolChoice rnd).1.content.GetText * 1) := by
  have hn1 : nFromReq req.n = 1 := by
    rcases hn with h | ⟨k, hk, hk0⟩
    · simp [nFromReq, h]
    · rw [hk]
      simp only [nFromReq]
      rw [if_neg (by omega)]
  rw [chatCompletionsHandler_nonstream req rnd hm hmsg hs, hn1]
  refine ⟨rfl, ?_, rfl⟩
  simp [choiceIndices, List.range_succ]

/-- Witness for `chat_default_choice_count` at `n = -2`. -/
theorem chat_default_choice_count_witness :
    choiceCount (chatCompletionsHandler reqNegativeN exRand) = 1
      ∧ choiceIndices (chatCompletionsHandler reqNegativeN exRand) = [0]
      ∧ completionTokensOf (chatCompletionsHandler reqNegativeN exRand) =
        some (estimateTokens
            (synthesize reqNegativeN.tools reqNegativeN.toolChoice
              exRand).1.content.GetText * 1) :=
  chat_default_choice_count reqNegativeN exRand (by decide) (by decide) rfl
    (Or.inr ⟨-2, rfl, by decide⟩)

/-! ## Claim C2 -/

/-- **C2**. For any canned reply the streaming handler can select, the
emitted frame sequence is exactly one role-open chunk, then the content
deltas — word `i` of the reply plus one trailing single space except the
last, which has none — whose concatenation equals the full reply text,
then one finish chunk with reason `"stop"`, then the `[DONE]` sentinel,
with no frames after it. -/
theorem streaming_frame_contract (content : String)
    (h : content ∈ mockResponses) :
    handleStreamingChat content =
        [StreamFrame.roleOpen "assistant"]
          ++ (deltaContents content).map StreamFrame.contentDelta
          ++ [StreamFrame.finish "stop", StreamFrame.done]
      ∧ String.join (deltaContents content) = content
      ∧ deltaContents content =
        (List.range (fields content).length).map fun i =>
          (fields content).getD i "" ++
            (if i < (fields content).length - 1 then " " else "") := by
  refine ⟨rfl, ?_, ?_⟩ <;>
  · simp only [mockResponses, List.mem_cons, List.not_mem_nil, or_false] at h
    rcases h with rfl | rfl | rfl | rfl | rfl <;> decide

/-- Witness for `streaming_frame_contract` at the first canned reply. -/
theorem streaming_frame_contract_witness :
    handleStreamingChat replyZero =
        [StreamFrame.roleOpen "assistant"]
          ++ (deltaContents replyZero).map StreamFrame.contentDelta
          ++ [StreamFrame.finish "stop", StreamFrame.done]
      ∧ String.join (deltaContents replyZero) = replyZero
      ∧ deltaContents replyZero =
        (List.range (fields replyZero).length).map fun i =>
          (fields replyZero).getD i "" ++
            (if i < (fields replyZero).length - 1 then " " else "") :=
  streaming_frame_contract replyZero (by decide)

/-! ## Claim C9 -/

/-- Content deltas are never finish frames. -/
theorem filter_finish_map_contentDelta (ds : List String) :
    (ds.map StreamFrame.contentDelta).filter isFinishFrame = [] := by
  induction ds with
  | nil => rfl
  | cons d t ih => simp [List.filter_cons, isFinishFrame, ih]

/-- **C9**. A validated request with `stream = true` takes the streaming
branch before any tool handling: the handler's result is the canned
frame stream, it coincides with the result for the same request with all
tools and the tool choice erased, its only finish frame carries reason
`"stop"` (never `"tool_calls"`), and the `[DONE]` sentinel is last. The
chunk delta type (`StreamDelta`) carries only `role` and `content`
fields, so no frame can carry tool-call data. -/
theorem streaming_precedes_tools (req : ChatCompletionRequest) (rnd : Rand)
    (hm : req.model ≠ "") (hmsg : req.messages ≠ []) (hs : req.stream = true) :
    chatCompletionsHandler req rnd =
        .streamed (handleStreamingChat (pickReply rnd.replyIndex))
      ∧ chatCompletionsHandler req rnd =
        chatCompletionsHandler
          { req with tools := [], toolChoice := .null } rnd
      ∧ (handleStreamingChat (pickReply rnd.replyIndex)).filter isFinishFrame
          = [StreamFrame.finish "stop"]
      ∧ (handleStreamingChat (pickReply rnd.replyIndex)).getLast? =
          some StreamFrame.done := by
  have h1 : chatCompletionsHandler req rnd =
      .streamed (handleStreamingChat (pickReply rnd.replyIndex)) := by
    simp [chatCompletionsHandler, hm, hs, List.length_eq_zero, hmsg]
  have h2 : chatCompletionsHandler
      { req with tools := [], toolChoice := .null } rnd =
      .streamed (handleStreamingChat (pickReply rnd.replyIndex)) := by
    simp [chatCompletionsHandler, hm, hs, List.length_eq_zero, hmsg]
  refine ⟨h1, h1.trans h2.symm, ?_, ?_⟩
  · simp [handleStreamingChat, List.filter_append,
      filter_finish_map_contentDelta, List.filter_cons, isFinishFrame]
  · rw [handleStreamingChat,
      show [StreamFrame.finish "stop", StreamFrame.done] =
        [StreamFrame.finish "stop"] ++ [StreamFrame.done] from rfl,
      ← List.append_assoc]
    exact List.getLast?_concat _

/-- Witness for `streaming_precedes_tools`: a streaming request carrying
tools and `tool_choice = "required"`. -/
theorem streaming_precedes_tools_witness :
    chatCompletionsHandler reqStreamTools exRand =
        .streamed (handleStreamingChat (pickReply exRand.replyIndex))
      ∧ chatCompletionsHandler reqStreamTools exRand =
        chatCompletionsHandler
          { reqStreamTools with tools := [], toolChoice := .null } exRand
      ∧ (handleStreamingChat (pickReply exRand.replyIndex)).filter isFinishFrame
          = [StreamFrame.finish "stop"]
      ∧ (handleStreamingChat (pickReply exRand.replyIndex)).getLast? =
          some StreamFrame.done :=
  streaming_precedes_tools reqStreamTools exRand (by decide) (by decide) rfl

/-! ## Claim C3 -/

/-- On the non-streaming success path, the first choice's finish reason
is the synthesized one. -/
theorem firstFinishReason_nonstream (req : ChatCompletionRequest)
    (rnd : Rand) (hm : req.model ≠ "") (hmsg : req.messages ≠ [])
    (hs : req.stream = false) :
    firstFinishReason (chatCompletionsHandler req rnd) =
      some (synthesize req.tools req.toolChoice rnd).2 := by
  rw [chatCompletionsHandler_nonstream req rnd hm hmsg hs]
  have hpos := nFromReq_pos req.n
  rcases hn : nFromReq req.n with _ | n
  · omega
  · simp [firstFinishReason, hn, List.range_succ_eq_map]

/-- On the non-streaming success path, the first choice's tool-call
names are those of the synthesized message. -/
theorem toolCallNames_nonstream (req : ChatCompletionRequest)
    (rnd : Rand) (hm : req.model ≠ "") (hmsg : req.messages ≠ [])
    (hs : req.stream = false) :
    toolCallNames (chatCompletionsHandler req rnd) =
      (synthesize req.tools req.toolChoice rnd).1.toolCalls.map (·.name) := by
  rw [chatCompletionsHandler_nonstream req rnd hm hmsg hs]
  have hpos := nFromReq_pos req.n
  rcases hn : nFromReq req.n with _ | n
  · omega
  · simp [toolCallNames, hn, List.range_succ_eq_map]

/-- **C3** (counterexample to the claim as stated). With two declared
tools and a `tool_choice` object naming the second (`get_time`), the
handler still emits a tool call naming the FIRST tool (`get_weather`):
the code always reads `req.Tools[0]` and ignores the function named by
`tool_choice`. -/
theorem toolchoice_named_function_counterexample :
    toolCallNames (chatCompletionsHandler reqToolChoiceNamed exRand) =
        ["get_weather"]
      ∧ (toolCallNames (chatCompletionsHandler reqToolChoiceNamed exRand) =
          ["get_time"] ↔ False) := by
  constructor
  · decide
  · simp only [iff_false]
    decide

/-- **C3 (amended)**. With non-empty tools on the non-streaming path:
`tool_choice` `"required"` or `"auto"` always yields a tool call
(finish reason `"tool_calls"`) naming the first declared tool; a
`tool_choice` object naming any specific function also always yields a
tool call, but it names the FIRST declared tool, not necessarily the
named one; with `tool_choice` unset a tool call is emitted exactly when
the uniform draw falls below 0.3 (the code's rendering of "30%
probability"). -/
theorem tool_decision (req : ChatCompletionRequest) (rnd : Rand)
    (hm : req.model ≠ "") (hmsg : req.messages ≠ []) (hs : req.stream = false)
    (t : Tool) (ts : List Tool) (ht : req.tools = t :: ts) :
    ((req.toolChoice = .str "required" ∨ req.toolChoice = .str "auto") →
        toolCallNames (chatCompletionsHandler req rnd) = [t.name]
          ∧ firstFinishReason (chatCompletionsHandler req rnd) =
            some "tool_calls")
      ∧ (∀ f, req.toolChoice = .obj f →
        toolCallNames (chatCompletionsHandler req rnd) = [t.name]
          ∧ firstFinishReason (chatCompletionsHandler req rnd) =
            some "tool_calls")
      ∧ (req.toolChoice = .null →
        (firstFinishReason (chatCompletionsHandler req rnd) =
            some "tool_calls"
          ↔ rnd.toolRand < 3/10)) := by
  have hf := firstFinishReason_nonstream req rnd hm hmsg hs
  have hc := toolCallNames_nonstream req rnd hm hmsg hs
  refine ⟨?_, ?_, ?_⟩
  · rintro (hch | hch) <;>
      simp [hf, hc, synthesize, ht, shouldUseTool, hch]
  · intro f hch
    simp [hf, hc, synthesize, ht, shouldUseTool, hch]
  · intro hch
    rw [hf]
    by_cases hr : rnd.toolRand < 3/10 <;>
      simp [synthesize, ht, shouldUseTool, hch, hr]

/-- Witness for `tool_decision`: `tool_choice = "required"` with one
declared tool. -/
theorem tool_decision_witness :
    toolCallNames (chatCompletionsHandler reqToolsRequired exRand) =
        ["get_weather"]
      ∧ firstFinishReason (chatCompletionsHandler reqToolsRequired exRand) =
        some "tool_calls" :=
  (tool_decision reqToolsRequired exRand (by decide) (by decide) rfl
      { type := "function", name := "get_weather" } [] rfl).1 (Or.inl rfl)

/-! ## Claim C4 -/

/-- **C4**. A non-streaming request with `n = k ≥ 1` yields exactly
`k` choices whose indices are `0, 1, …, k-1` in order, all carrying the
same synthesized message; `usage.completion_tokens` is `k` times the
single-message estimate (byte length over 4), and `usage.prompt_tokens`
is the sum of the estimates over the input messages — an expression not
involving `k`, hence computed once, independent of `k`. -/
theorem chat_n_choices (req : ChatCompletionRequest) (rnd : Rand) (k : Int)
    (hm : req.model ≠ "") (hmsg : req.messages ≠ []) (hs : req.stream = false)
    (hn : req.n = some k) (hk : 1 ≤ k) :
    choiceCount (chatCompletionsHandler req rnd) = k.toNat
      ∧ choiceIndices (chatCompletionsHandler req rnd) = List.range k.toNat
      ∧ choiceMessages (chatCompletionsHandler req rnd) =
        List.replicate k.toNat (synthesize req.tools req.toolChoice rnd).1
      ∧ completionTokensOf (chatCompletionsHandler req rnd) =
        some (k.toNat *
          estimateTokens
            (synthesize req.tools req.toolChoice rnd).1.content.GetText)
      ∧ promptTokensOfResult (chatCompletionsHandler req rnd) =
        some (promptTokensOf req.messages) := by
  have hnn : nFromReq req.n = k.toNat := by
    rw [hn]
    simp only [nFromReq]
    rw [if_pos (by omega)]
  rw [chatCompletionsHandler_nonstream req rnd hm hmsg hs, hnn]
  refine ⟨?_, ?_, ?_, ?_, ?_⟩
  · simp [choiceCount]
  · simp only [choiceIndices, List.map_map]
    rw [show ((fun c : ChatChoice => c.index) ∘ fun i =>
        ({ index := i, message := (synthesize req.tools req.toolChoice rnd).1,
           finishReason := (synthesize req.tools req.toolChoice rnd).2 } :
          ChatChoice)) = fun i => i from rfl]
    exact List.map_id _
  · simp only [choiceMessages, List.map_map]
    rw [show ((fun c : ChatChoice => c.message) ∘ fun i =>
        ({ index := i, message := (synthesize req.tools req.toolChoice rnd).1,
           finishReason := (synthesize req.tools req.toolChoice rnd).2 } :
          ChatChoice)) =
        fun _ => (synthesize req.tools req.toolChoice rnd).1 from rfl]
    simp [List.map_const']
  · simp [completionTokensOf, Nat.mul_comm]
  · simp [promptTokensOfResult]

/-- Witness for `chat_n_choices` at `n = 3`. -/
theorem chat_n_choices_witness :
    choiceCount (chatCompletionsHandler reqThreeChoices exRand) =
        (3 : Int).toNat
      ∧ choiceIndices (chatCompletionsHandler reqThreeChoices exRand) =
        List.range (3 : Int).toNat
      ∧ choiceMessages (chatCompletionsHandler reqThreeChoices exRand) =
        List.replicate (3 : Int).toNat
          (synthesize reqThreeChoices.tools reqThreeChoices.toolChoice
            exRand).1
      ∧ completionTokensOf (chatCompletionsHandler reqThreeChoices exRand) =
        some ((3 : Int).toNat *
          estimateTokens
            (synthesize reqThreeChoices.tools reqThreeChoices.toolChoice
              exRand).1.content.GetText)
      ∧ promptTokensOfResult (chatCompletionsHandler reqThreeChoices exRand) =
        some (promptTokensOf reqThreeChoices.messages) :=
  chat_n_choices reqThreeChoices exRand 3 (by decide) (by decide) rfl rfl
    (by decide)

/-! ## Claim C6 -/

/-- **C6**. Every vector in a successful embeddings response has length
exactly the computed dimension `d`, and the computed dimension follows
the stated rule (`specDimensions`): 1536 by default, 3072 for
`text-embedding-3-large`, overridden by the request's `dimensions` field
exactly for the two v3 models. -/
theorem embedding_vector_dimensions (req : EmbeddingsRequest)
    (raw : Nat → Nat → ℚ) (data : List (List ℚ)) (pt : Nat)
    (h : embeddingsHandler req raw = .ok data pt) :
    (∀ v ∈ data,
        (v.length : Int) = computeDimensions req.model req.dimensions)
      ∧ computeDimensions req.model req.dimensions =
        specDimensions req.model req.dimensions := by
  constructor
  · intro v hv
    by_cases hm : req.model = ""
    · simp [embeddingsHandler, hm] at h
    · rcases hinp : req.input with _ | inp
      · simp [embeddingsHandler, hm, hinp] at h
      · by_cases hneg : computeDimensions req.model req.dimensions < 0 ∧
            parseInputs inp ≠ []
        · simp [embeddingsHandler, hm, hinp, hneg] at h
        · have hdata : data = (parseInputs inp).enum.map fun p =>
              generateEmbedding
                (computeDimensions req.model req.dimensions).toNat
                (raw p.1) := by
            simp [embeddingsHandler, hm, hinp, hneg] at h
            exact h.1.symm
          rw [hdata] at hv
          simp only [List.mem_map] at hv
          obtain ⟨p, hp, hvp⟩ := hv
          have hlen : v.length =
              (computeDimensions req.model req.dimensions).toNat := by
            rw [← hvp]
            simp [generateEmbedding, normalizeEmbedding]
          have hne : parseInputs inp ≠ [] := by
            intro hnil
            rw [hnil] at hp
            simp [List.enum] at hp
          have hd0 : 0 ≤ computeDimensions req.model req.dimensions := by
            by_contra hlt
            exact hneg ⟨by omega, hne⟩
          rw [hlen, Int.toNat_of_nonneg hd0]
  · rcases hd : req.dimensions with _ | k <;>
      simp [computeDimensions, specDimensions]

/-- Witness for `embedding_vector_dimensions`: the 3072-dimension model
with a 7-dimension override and a mixed string/non-string input array
produces two vectors of length 7. -/
theorem embedding_vector_dimensions_witness :
    (embedDataLarge.map fun v => (v.length : Int)) = [7, 7]
      ∧ computeDimensions "text-embedding-3-large" (some 7) =
        specDimensions "text-embedding-3-large" (some 7) := by
  have h : embeddingsHandler embedReqLarge rawOnes =
      .ok embedDataLarge ((["alpha", "beta"].map estimateTokens).sum) := rfl
  refine ⟨?_, ?_⟩
  · simp [embedDataLarge, generateEmbedding, normalizeEmbedding]
  · exact (embedding_vector_dimensions embedReqLarge rawOnes embedDataLarge
      ((["alpha", "beta"].map estimateTokens).sum) h).2

/-! ## Claim C7 -/

theorem headerValues_cons (k : String) (p : String × String) (h : Header) :
    headerValues k (p :: h) =
      if p.1 = k then p.2 :: headerValues k h else headerValues k h := by
  by_cases hp : p.1 = k <;> simp [headerValues, List.filter_cons, hp]

theorem headerValues_append (k : String) (h₁ h₂ : Header) :
    headerValues k (h₁ ++ h₂) = headerValues k h₁ ++ headerValues k h₂ := by
  simp [headerValues, List.filter_append]

theorem removeHop_cons (p : String × String) (t : Header) :
    removeHopByHopHeaders (p :: t) =
      if p.1 ∈ hopByHopHeaders then removeHopByHopHeaders t
      else p :: removeHopByHopHeaders t := by
  by_cases hmem : p.1 ∈ hopByHopHeaders <;>
    simp [removeHopByHopHeaders, List.filter_cons, hmem]

/-- Values surviving the hop-by-hop strip: none for a hop-by-hop key,
all of them for any other key. -/
theorem headerValues_removeHop (k : String) (h : Header) :
    headerValues k (removeHopByHopHeaders h) =
      if k ∈ hopByHopHeaders then [] else headerValues k h := by
  induction h with
  | nil =>
    by_cases hk : k ∈ hopByHopHeaders <;>
      simp [removeHopByHopHeaders, headerValues, hk]
  | cons p t ih =>
    rw [removeHop_cons]
    by_cases hmem : p.1 ∈ hopByHopHeaders
    · rw [if_pos hmem, ih, headerValues_cons]
      by_cases hpk : p.1 = k
      · subst hpk
        simp [hmem]
      · simp [hpk]
    · rw [if_neg hmem, headerValues_cons, headerValues_cons, ih]
      by_cases hpk : p.1 = k
      · subst hpk
        simp [hmem]
      · simp [hpk]

theorem headerGetStr_removeHop (k : String) (h : Header)
    (hk : k ∉ hopByHopHeaders) :
    headerGetStr k (removeHopByHopHeaders h) = headerGetStr k h := by
  simp [headerGetStr, headerValues_removeHop, hk]

theorem headerValues_eraseKey (k k' : String) (h : Header) :
    headerValues k (h.filter fun p => p.1 != k') =
      if k = k' then [] else headerValues k h := by
  induction h with
  | nil => by_cases hkk : k = k' <;> simp [headerValues, hkk]
  | cons p t ih =>
    rw [List.filter_cons]
    by_cases hpk' : p.1 = k'
    · rw [show ((p.1 != k') = false) by simp [hpk'], if_neg (by simp), ih,
        headerValues_cons]
      by_cases hkk : k = k'
      · simp [hkk]
      · have hpk : p.1 ≠ k := by
          rw [hpk']
          exact fun he => hkk he.symm
        simp [hpk, hkk]
    · rw [show ((p.1 != k') = true) by simp [hpk'], if_pos rfl,
        headerValues_cons, headerValues_cons, ih]
      by_cases hpk : p.1 = k
      · subst hpk
        simp [hpk']
      · simp [hpk]

/-- Values after Go `Header.Set`: exactly the one set value for the set
key, untouched values for every other key. -/
theorem headerValues_set (k k' v : String) (h : Header) :
    headerValues k (headerSet k' v h) =
      if k = k' then [v] else headerValues k h := by
  rw [show headerSet k' v h = (h.filter fun p => p.1 != k') ++ [(k', v)]
      from rfl,
    headerValues_append, headerValues_eraseKey, headerValues_cons]
  by_cases hkk : k = k'
  · simp [hkk, headerValues]
  · have : k' ≠ k := fun he => hkk he.symm
    simp [hkk, this, headerValues]

/-- **C7**. Forward-mode header hygiene: every hop-by-hop header is
absent from both the outbound request headers and the relayed response
headers; every other header is copied through unchanged (on the request
side, except the three `X-Forwarded-*` headers the proxy sets itself);
`X-Forwarded-Host` and `X-Forwarded-Proto` are set to the original host
and `"http"`; and when the client address parses, `X-Forwarded-For`
carries the prior value extended with the client ip (or just the ip). -/
theorem proxy_header_hygiene (reqH respH : Header) (remoteIP : Option String)
    (host : String) (k : String) :
    (k ∈ hopByHopHeaders →
        headerValues k (outboundHeaders reqH remoteIP host) = []
          ∧ headerValues k (relayedResponseHeaders respH) = [])
      ∧ (k ∉ hopByHopHeaders → k ≠ "X-Forwarded-For" →
          k ≠ "X-Forwarded-Host" → k ≠ "X-Forwarded-Proto" →
        headerValues k (outboundHeaders reqH remoteIP host) =
          headerValues k reqH)
      ∧ (k ∉ hopByHopHeaders →
        headerValues k (relayedResponseHeaders respH) = headerValues k respH)
      ∧ headerValues "X-Forwarded-Host" (outboundHeaders reqH remoteIP host) =
        [host]
      ∧ headerValues "X-Forwarded-Proto" (outboundHeaders reqH remoteIP host) =
        ["http"]
      ∧ (∀ ip, remoteIP = some ip →
        headerValues "X-Forwarded-For" (outboundHeaders reqH remoteIP host) =
          [xffValue (headerGetStr "X-Forwarded-For" reqH) ip]) := by
  refine ⟨?_, ?_, ?_, ?_, ?_, ?_⟩
  · intro hk
    have h1 : k ≠ "X-Forwarded-For" := by rintro rfl; revert hk; decide
    have h2 : k ≠ "X-Forwarded-Host" := by rintro rfl; revert hk; decide
    have h3 : k ≠ "X-Forwarded-Proto" := by rintro rfl; revert hk; decide
    constructor
    · rcases remoteIP with _ | ip <;>
        simp [outboundHeaders, headerValues_set, headerValues_removeHop,
          h1, h2, h3, hk]
    · simp [relayedResponseHeaders, headerValues_removeHop, hk]
  · intro hk h1 h2 h3
    rcases remoteIP with _ | ip <;>
      simp [outboundHeaders, headerValues_set, headerValues_removeHop,
        h1, h2, h3, hk]
  · intro hk
    simp [relayedResponseHeaders, headerValues_removeHop, hk]
  · rcases remoteIP with _ | ip <;>
      simp [outboundHeaders, headerValues_set, headerValues_removeHop]
  · rcases remoteIP with _ | ip <;>
      simp [outboundHeaders, headerValues_set]
  · rintro ip rfl
    simp [outboundHeaders, headerValues_set,
      headerGetStr_removeHop "X-Forwarded-For" reqH (by decide)]

/-- Witness for `proxy_header_hygiene` on concrete headers: the
hop-by-hop `Connection` and `Te` entries vanish from the outbound
request and `Transfer-Encoding` from the relayed response, `Accept`
passes through unchanged, and the `X-Forwarded-*` headers are set, with
`X-Forwarded-For` extended from its prior value. -/
theorem proxy_header_hygiene_witness :
    headerValues "Connection"
        (outboundHeaders exReqHeaders (some "5.6.7.8") "example.com") = []
      ∧ headerValues "Transfer-Encoding"
        (relayedResponseHeaders exRespHeaders) = []
      ∧ headerValues "Accept"
          (outboundHeaders exReqHeaders (some "5.6.7.8") "example.com") =
        headerValues "Accept" exReqHeaders
      ∧ headerValues "Content-Type" (relayedResponseHeaders exRespHeaders) =
        headerValues "Content-Type" exRespHeaders
      ∧ headerValues "X-Forwarded-Host"
          (outboundHeaders exReqHeaders (some "5.6.7.8") "example.com") =
        ["example.com"]
      ∧ headerValues "X-Forwarded-For"
          (outboundHeaders exReqHeaders (some "5.6.7.8") "example.com") =
        [xffValue (headerGetStr "X-Forwarded-For" exReqHeaders) "5.6.7.8"] :=
  ⟨(proxy_header_hygiene exReqHeaders exRespHeaders (some "5.6.7.8")
      "example.com" "Connection").1 (by decide) |>.1,
   (proxy_header_hygiene exReqHeaders exRespHeaders (some "5.6.7.8")
      "example.com" "Transfer-Encoding").1 (by decide) |>.2,
   (proxy_header_hygiene exReqHeaders exRespHeaders (some "5.6.7.8")
      "example.com" "Accept").2.1 (by decide) (by decide) (by decide)
      (by decide),
   (proxy_header_hygiene exReqHeaders exRespHeaders (some "5.6.7.8")
      "example.com" "Content-Type").2.2.1 (by decide),
   (proxy_header_hygiene exReqHeaders exRespHeaders (some "5.6.7.8")
      "example.com" "Content-Type").2.2.2.1,
   (proxy_header_hygiene exReqHeaders exRespHeaders (some "5.6.7.8")
      "example.com" "Content-Type").2.2.2.2.2 "5.6.7.8" rfl⟩
